import Mathlib

/-!
Verification of the request-routing and prompt-templating behavior of the
MCP ChatGPT relay repository.  The development shallowly embeds the two
source files:

* `src/api/index.py` — the HTTP surface: `handler.do_POST`, `handler.do_GET`,
  `handler.handle_chat`, `handler.handle_analyze`, `handler.handle_list_tools`;
* `src/server.py` — the stdio surface: `call_tool`.

The external completion provider (`client.chat.completions.create`) is an
opaque collaborator; it is modelled as an oracle: a function from the
constructed completion request to either a completion result or a fault
message.  A Python `try/except` around the provider call becomes a `match`
on the oracle's `Except` result; the handlers' return types are plain
values (not `Except`), reflecting that every fault is caught inside the
handler.  Request bodies are modelled as a record of optional string
fields, matching Python `dict.get` access on the parsed JSON body.
-/

/-- A JSON value, the shape of every HTTP response body in `src/api/index.py`. -/
inductive JValue where
  | str : String → JValue
  | num : Nat → JValue
  | bool : Bool → JValue
  | arr : List JValue → JValue
  | obj : List (String × JValue) → JValue

/-- Field lookup in a JSON object; `none` on non-objects or absent keys. -/
def jLookup (k : String) : JValue → Option JValue
  | .obj fields => fields.lookup k
  | _ => none

/-- The provider's reply shape (`response.choices[0].message.content` plus
`response.usage`), per the spec §6 collaborator contract. -/
structure CompletionResult where
  content : String
  prompt_tokens : Nat
  completion_tokens : Nat
  total_tokens : Nat

/-- One element of the `messages` list handed to the provider.  `content`
is optional because the stdio surface can pass Python `None` through
(`arguments.get("message")` with no default, `src/server.py` line 80). -/
structure Msg where
  role : String
  content : Option String

/-- The argument record of `client.chat.completions.create(...)`. -/
structure CompletionRequest where
  model : String
  messages : List Msg
  max_tokens : Nat

/-- The external completion provider, an opaque collaborator: it returns a
completion or raises a fault (modelled as `Except.error` with the fault's
string rendering). -/
def Oracle : Type := CompletionRequest → Except String CompletionResult

/-- A parsed request body / tool-argument bag.  Each field models
`data.get(key)` on the JSON dict; absent keys are `none`. -/
structure PostData where
  action : Option String := none
  message : Option String := none
  system_prompt : Option String := none
  model : Option String := none
  text : Option String := none
  analysis_type : Option String := none

/-- Python `f"{x}"` on a value that may be `None`: `None` renders as the
string `"None"`. -/
def pyStr : Option String → String
  | some s => s
  | none => "None"

/-- Python `str(KeyError(k))`: the `repr` of the missing key — quoted for a
string key, `"None"` for `None`. -/
def pyKeyRepr : Option String → String
  | some s => "'" ++ s ++ "'"
  | none => "None"

/-- The `usage` sub-object of a successful HTTP response
(`src/api/index.py` lines 91-95 and 128-132). -/
def usageJson (r : CompletionResult) : JValue :=
  .obj [("prompt_tokens", .num r.prompt_tokens),
        ("completion_tokens", .num r.completion_tokens),
        ("total_tokens", .num r.total_tokens)]

/-- The completion request `handler.handle_chat` builds
(`src/api/index.py` lines 73-85): defaults `""`,
`"You are a helpful AI assistant."`, `"gpt-4o"`; fixed `max_tokens=1000`. -/
def httpChatRequest (data : PostData) : CompletionRequest :=
  { model := data.model.getD "gpt-4o",
    messages := [⟨"system", some (data.system_prompt.getD "You are a helpful AI assistant.")⟩,
                 ⟨"user", some (data.message.getD "")⟩],
    max_tokens := 1000 }

/-- `handler.handle_chat` (`src/api/index.py` lines 71-101): invoke the
provider; on success return the success object, on any fault the failure
object `{success: false, error: <message>}`. -/
def handle_chat (o : Oracle) (data : PostData) : JValue :=
  match o (httpChatRequest data) with
  | .ok r => .obj [("success", .bool true), ("response", .str r.content),
                   ("model", .str (data.model.getD "gpt-4o")), ("usage", usageJson r)]
  | .error e => .obj [("success", .bool false), ("error", .str e)]

/-- The `sentiment` entry of the `prompts` dict (identical f-string in both
`src/api/index.py` line 109 and `src/server.py` line 105). -/
def sentimentPrompt (text : String) : String :=
  "Analyze the sentiment of this text and provide a detailed assessment:\n\n" ++ text

/-- The `themes` entry of the `prompts` dict. -/
def themesPrompt (text : String) : String :=
  "Identify and explain the main themes in this text:\n\n" ++ text

/-- The `summary` entry of the `prompts` dict. -/
def summaryPrompt (text : String) : String :=
  "Provide a concise summary of this text:\n\n" ++ text

/-- The `key_points` entry of the `prompts` dict. -/
def keyPointsPrompt (text : String) : String :=
  "Extract the key points from this text as a bulleted list:\n\n" ++ text

/-- Lookup in the four-entry `prompts` dict keyed by analysis type. -/
def promptsGet (text : String) (k : String) : Option String :=
  if k = "sentiment" then some (sentimentPrompt text)
  else if k = "themes" then some (themesPrompt text)
  else if k = "summary" then some (summaryPrompt text)
  else if k = "key_points" then some (keyPointsPrompt text)
  else none

/-- The completion request `handler.handle_analyze` builds
(`src/api/index.py` lines 105-122): `prompts.get(analysis_type,
prompts['summary'])`, model fixed to `"gpt-4o"`, `max_tokens=1000`. -/
def httpAnalyzeRequest (data : PostData) : CompletionRequest :=
  { model := "gpt-4o",
    messages := [⟨"user", some ((promptsGet (data.text.getD "") (data.analysis_type.getD "summary")).getD
                    (summaryPrompt (data.text.getD "")))⟩],
    max_tokens := 1000 }

/-- `handler.handle_analyze` (`src/api/index.py` lines 103-138). -/
def handle_analyze (o : Oracle) (data : PostData) : JValue :=
  match o (httpAnalyzeRequest data) with
  | .ok r => .obj [("success", .bool true), ("analysis", .str r.content),
                   ("type", .str (data.analysis_type.getD "summary")), ("usage", usageJson r)]
  | .error e => .obj [("success", .bool false), ("error", .str e)]

/-- `handler.handle_list_tools` (`src/api/index.py` lines 140-156): static data. -/
def handle_list_tools : JValue :=
  .obj [("success", .bool true),
        ("tools", .arr
          [.obj [("name", .str "chat"),
                 ("description", .str "Chat with ChatGPT"),
                 ("parameters", .arr [.str "message", .str "system_prompt (optional)",
                   .str "model (optional: gpt-4o, gpt-4o-mini, gpt-4-turbo)"])],
           .obj [("name", .str "analyze"),
                 ("description", .str "Analyze text"),
                 ("parameters", .arr [.str "text",
                   .str "analysis_type (sentiment|themes|summary|key_points)"])]])]

/-- The unknown-action response body (`src/api/index.py` line 31). -/
def unknownActionResponse : JValue := .obj [("error", .str "Unknown action")]

/-- `handler.do_POST` restricted to a well-formed (JSON-dict) body
(`src/api/index.py` lines 20-37): the if/elif action dispatch; every branch
replies with HTTP status 200.  The handlers are total, so the outer
`except` branch (status 500) is unreachable for such bodies. -/
def do_POST (o : Oracle) (data : PostData) : Nat × JValue :=
  if data.action = some "chat" then (200, handle_chat o data)
  else if data.action = some "analyze" then (200, handle_analyze o data)
  else if data.action = some "list_tools" then (200, handle_list_tools)
  else (200, unknownActionResponse)

/-- `handler.do_GET` (`src/api/index.py` lines 54-69): static status payload. -/
def do_GET : Nat × JValue :=
  (200, .obj [("status", .str "online"),
              ("service", .str "MCP ChatGPT Server"),
              ("endpoints", .obj
                [("POST /api", .str "Main API endpoint"),
                 ("actions", .arr [.str "chat", .str "analyze", .str "list_tools"])])])

/-- One `TextContent(type="text", text=...)` item of the stdio surface. -/
structure TextContent where
  type : String
  text : String

/-- The completion request the stdio `chat_with_gpt` branch builds
(`src/server.py` lines 80-92): note `arguments.get("message")` has no
default, so an absent message is passed to the provider as `None` content. -/
def stdioChatRequest (args : PostData) : CompletionRequest :=
  { model := args.model.getD "gpt-4o",
    messages := [⟨"system", some (args.system_prompt.getD "You are a helpful AI assistant.")⟩,
                 ⟨"user", args.message⟩],
    max_tokens := 1000 }

/-- The `prompts[analysis_type]` lookup of the stdio `analyze_text` branch
(`src/server.py` line 115): a plain subscript, so an unrecognized (or
absent) key raises `KeyError` instead of falling back. -/
def stdioPromptLookup (args : PostData) : Option String :=
  match args.analysis_type with
  | none => none
  | some k => promptsGet (pyStr args.text) k

/-- The completion request the stdio `analyze_text` branch builds when the
`prompts` lookup succeeds (`src/server.py` lines 112-117). -/
def stdioAnalyzeRequest (args : PostData) : Option CompletionRequest :=
  (stdioPromptLookup args).map fun p =>
    { model := "gpt-4o", messages := [⟨"user", some p⟩], max_tokens := 1000 }

/-- `call_tool` (`src/server.py` lines 76-127): the stdio tool dispatch.
Both tool branches catch every fault and return a single text item; the
unknown-tool branch returns `"Unknown tool: <name>"`. -/
def call_tool (o : Oracle) (tool : String) (args : PostData) : List TextContent :=
  if tool = "chat_with_gpt" then
    match o (stdioChatRequest args) with
    | .ok r => [⟨"text", r.content⟩]
    | .error e => [⟨"text", "Error calling ChatGPT: " ++ e⟩]
  else if tool = "analyze_text" then
    match stdioAnalyzeRequest args with
    | none => [⟨"text", "Error analyzing text: " ++ pyKeyRepr args.analysis_type⟩]
    | some req =>
      match o req with
      | .ok r => [⟨"text", r.content⟩]
      | .error e => [⟨"text", "Error analyzing text: " ++ e⟩]
  else
    [⟨"text", "Unknown tool: " ++ tool⟩]

/-- Modelled from the spec (§4.3 template table, written against the spec's
words rather than the source, for comparison with the source's `prompts`
dict): the fixed instruction for each defined analysis type. -/
def specTemplate (ty : String) : String :=
  if ty = "sentiment" then "Analyze the sentiment of this text and provide a detailed assessment:"
  else if ty = "themes" then "Identify and explain the main themes in this text:"
  else if ty = "summary" then "Provide a concise summary of this text:"
  else "Extract the key points from this text as a bulleted list:"

/-- Modelled from the spec (§4.2: the message parameter "fails with
`ValidationError` if absent"): a provider/SDK that faults whenever some
outbound message carries no content. -/
def validatesContent (o : Oracle) : Prop :=
  ∀ req : CompletionRequest, (∃ m ∈ req.messages, m.content = none) →
    ∃ e, o req = Except.error e

/-- A concrete stub provider: faults with `"ValidationError"` when some
message content is absent, otherwise succeeds with fixed output. -/
def stubOracle : Oracle := fun req =>
  if req.messages.any (fun m => m.content.isNone) then Except.error "ValidationError"
  else Except.ok ⟨"stub", 1, 2, 3⟩

/-- A concrete stub provider that faults on every invocation. -/
def failOracle : Oracle := fun _ => Except.error "boom"

theorem stubOracle_validates : validatesContent stubOracle := by
  intro req h
  obtain ⟨m, hm, hc⟩ := h
  refine ⟨"ValidationError", ?_⟩
  unfold stubOracle
  have hany : req.messages.any (fun m => m.content.isNone) = true :=
    List.any_eq_true.mpr ⟨m, hm, by simp [hc]⟩
  simp [hany]

example : handle_chat failOracle {} =
    .obj [("success", .bool false), ("error", .str "boom")] := rfl

example : call_tool failOracle "chat_with_gpt" {} =
    [⟨"text", "Error calling ChatGPT: boom"⟩] := rfl

example : call_tool stubOracle "nope" {} = [⟨"text", "Unknown tool: nope"⟩] := rfl

/-- C1: for every chat request, a provider fault is caught and reported as
the failure object `{success: false, error: <fault message>}` on the HTTP
surface and as a single inline error text item on the stdio surface; the
handlers are total functions into plain response values, so the fault is
never propagated to the transport adapter. -/
theorem chat_provider_fault_reported (o : Oracle) (data : PostData) (e : String)
    (hhttp : o (httpChatRequest data) = Except.error e)
    (hstdio : o (stdioChatRequest data) = Except.error e) :
    handle_chat o data = .obj [("success", .bool false), ("error", .str e)] ∧
    call_tool o "chat_with_gpt" data = [⟨"text", "Error calling ChatGPT: " ++ e⟩] := by
  constructor
  · simp [handle_chat, hhttp]
  · simp [call_tool, hstdio]

theorem chat_provider_fault_reported_witness :
    handle_chat failOracle {} = .obj [("success", .bool false), ("error", .str "boom")] ∧
    call_tool failOracle "chat_with_gpt" {} = [⟨"text", "Error calling ChatGPT: " ++ "boom"⟩] :=
  chat_provider_fault_reported failOracle {} "boom" rfl rfl

/-- C2: for every POST request with a well-formed JSON body, the router
dispatches `"chat"` to the Chat Relay, `"analyze"` to the Analysis Relay
and `"list_tools"` to the Tool Catalog, and every other action value
(including a missing action field) yields the body
`{"error": "Unknown action"}`; every branch replies with HTTP status 200. -/
theorem router_dispatch (o : Oracle) (data : PostData) :
    (data.action = some "chat" → do_POST o data = (200, handle_chat o data)) ∧
    (data.action = some "analyze" → do_POST o data = (200, handle_analyze o data)) ∧
    (data.action = some "list_tools" → do_POST o data = (200, handle_list_tools)) ∧
    (data.action ≠ some "chat" → data.action ≠ some "analyze" →
      data.action ≠ some "list_tools" →
      do_POST o data = (200, .obj [("error", .str "Unknown action")])) := by
  refine ⟨fun h => by simp [do_POST, h], fun h => by simp [do_POST, h],
    fun h => by simp [do_POST, h],
    fun h1 h2 h3 => by simp [do_POST, unknownActionResponse, h1, h2, h3]⟩

theorem router_dispatch_witness :
    do_POST failOracle { action := some "chat" } =
      (200, handle_chat failOracle { action := some "chat" }) ∧
    do_POST failOracle { action := some "foo" } =
      (200, .obj [("error", .str "Unknown action")]) :=
  ⟨(router_dispatch failOracle { action := some "chat" }).1 rfl,
   (router_dispatch failOracle { action := some "foo" }).2.2.2
     (by simp) (by simp) (by simp)⟩

/-- C8: for every stdio tool call whose name is neither `"chat_with_gpt"`
nor `"analyze_text"`, the call returns exactly one text content item whose
text is `"Unknown tool: "` followed by the given name. -/
theorem unknown_tool_reply (o : Oracle) (tool : String) (args : PostData)
    (h1 : tool ≠ "chat_with_gpt") (h2 : tool ≠ "analyze_text") :
    call_tool o tool args = [⟨"text", "Unknown tool: " ++ tool⟩] := by
  simp [call_tool, h1, h2]

theorem unknown_tool_reply_witness :
    call_tool failOracle "bar" {} = [⟨"text", "Unknown tool: " ++ "bar"⟩] :=
  unknown_tool_reply failOracle "bar" {} (by simp) (by simp)

/-- C9 (counterexample): the GET status payload's `endpoints.actions` list
is the three-element list `["chat", "analyze", "list_tools"]`, not the
two-element list `["chat", "analyze"]` the claim states. -/
theorem get_actions_counterexample :
    jLookup "actions" ((jLookup "endpoints" do_GET.2).getD (.obj [])) =
      some (.arr [.str "chat", .str "analyze", .str "list_tools"]) ∧
    JValue.arr [.str "chat", .str "analyze", .str "list_tools"] ≠
      JValue.arr [.str "chat", .str "analyze"] :=
  ⟨rfl, by simp⟩

/-- C9 (amended): every GET request returns status 200 with a JSON body
whose `status` field is `"online"` and whose `endpoints.actions` field
lists exactly the three actions `chat`, `analyze` and `list_tools`. -/
theorem get_status_payload :
    do_GET.1 = 200 ∧
    jLookup "status" do_GET.2 = some (.str "online") ∧
    jLookup "actions" ((jLookup "endpoints" do_GET.2).getD (.obj [])) =
      some (.arr [.str "chat", .str "analyze", .str "list_tools"]) :=
  ⟨rfl, rfl, rfl⟩

/-- C3 (counterexample): a chat request with no `message` field, against a
stub provider that faults with `"ValidationError"` whenever a message
content is absent but succeeds otherwise, still succeeds on the HTTP
surface — `handle_chat` defaults the absent message to `""` and proceeds
with the provider call instead of failing. -/
theorem chat_missing_message_counterexample :
    ({ action := some "chat" } : PostData).message = none ∧
    handle_chat stubOracle { action := some "chat" } =
      .obj [("success", .bool true), ("response", .str "stub"),
            ("model", .str "gpt-4o"),
            ("usage", .obj [("prompt_tokens", .num 1), ("completion_tokens", .num 2),
                            ("total_tokens", .num 3)])] :=
  ⟨rfl, rfl⟩

/-- C3 (amended): when the `message` parameter is absent, the stdio surface
passes `None` as the user content, so any provider that validates message
content faults and the fault is surfaced as a generic inline error text;
the HTTP surface instead silently defaults the message to `""` and builds
the same provider request as an explicit empty-string message — the
provider call proceeds. -/
theorem chat_missing_message_amended (o : Oracle) (data : PostData)
    (hmsg : data.message = none) (hval : validatesContent o) :
    (∃ e, call_tool o "chat_with_gpt" data = [⟨"text", "Error calling ChatGPT: " ++ e⟩]) ∧
    httpChatRequest data = httpChatRequest { data with message := some "" } := by
  constructor
  · obtain ⟨e, he⟩ := hval (stdioChatRequest data)
      ⟨⟨"user", data.message⟩, by simp [stdioChatRequest], hmsg⟩
    exact ⟨e, by simp [call_tool, he]⟩
  · simp [httpChatRequest, hmsg]

theorem chat_missing_message_amended_witness :
    (∃ e, call_tool stubOracle "chat_with_gpt" {} =
      [⟨"text", "Error calling ChatGPT: " ++ e⟩]) ∧
    httpChatRequest {} = httpChatRequest { message := some "" } :=
  chat_missing_message_amended stubOracle {} rfl stubOracle_validates

/-- C4 (counterexample): the unknown-action response of the router on a
well-formed body is exactly `{"error": "Unknown action"}`, which carries no
`success` boolean — the claimed invariant fails on that response. -/
theorem router_success_field_counterexample :
    (do_POST stubOracle { action := some "foo" }).2 = unknownActionResponse ∧
    jLookup "success" unknownActionResponse = none :=
  ⟨rfl, rfl⟩

/-- C4 (amended): for every well-formed request body the router replies
with status 200 and a JSON response value (no unhandled fault escapes),
and that response either carries a `success` boolean (chat, analyze,
list_tools branches) or is exactly the unknown-action object
`{"error": "Unknown action"}`, which carries none. -/
theorem router_success_or_unknown (o : Oracle) (data : PostData) :
    (do_POST o data).1 = 200 ∧
    ((∃ b, jLookup "success" (do_POST o data).2 = some (.bool b)) ∨
      (do_POST o data).2 = unknownActionResponse) := by
  unfold do_POST
  split_ifs with h1 h2 h3
  · refine ⟨rfl, .inl ?_⟩
    unfold handle_chat
    cases o (httpChatRequest data) with
    | ok r => exact ⟨true, rfl⟩
    | error e => exact ⟨false, rfl⟩
  · refine ⟨rfl, .inl ?_⟩
    unfold handle_analyze
    cases o (httpAnalyzeRequest data) with
    | ok r => exact ⟨true, rfl⟩
    | error e => exact ⟨false, rfl⟩
  · exact ⟨rfl, .inl ⟨true, rfl⟩⟩
  · exact ⟨rfl, .inr rfl⟩

theorem sentimentPrompt_eq_spec (t : String) :
    sentimentPrompt t = specTemplate "sentiment" ++ "\n\n" ++ t := rfl

theorem themesPrompt_eq_spec (t : String) :
    themesPrompt t = specTemplate "themes" ++ "\n\n" ++ t := rfl

theorem summaryPrompt_eq_spec (t : String) :
    summaryPrompt t = specTemplate "summary" ++ "\n\n" ++ t := rfl

theorem keyPointsPrompt_eq_spec (t : String) :
    keyPointsPrompt t = specTemplate "key_points" ++ "\n\n" ++ t := rfl

/-- C5: for each of the four defined analysis types, on both surfaces, the
single user-role message handed to the provider is exactly the spec §4.3
instruction for that type with the input text appended (after the code's
blank-line separator). -/
theorem analysis_templates (data : PostData) (t ty : String)
    (htext : data.text = some t) (hty : data.analysis_type = some ty)
    (hdef : ty = "sentiment" ∨ ty = "themes" ∨ ty = "summary" ∨ ty = "key_points") :
    (httpAnalyzeRequest data).messages = [⟨"user", some (specTemplate ty ++ "\n\n" ++ t)⟩] ∧
    stdioAnalyzeRequest data = some
      { model := "gpt-4o",
        messages := [⟨"user", some (specTemplate ty ++ "\n\n" ++ t)⟩],
        max_tokens := 1000 } := by
  rcases hdef with h | h | h | h <;> subst h <;>
    exact ⟨by simp [httpAnalyzeRequest, htext, hty, promptsGet, sentimentPrompt_eq_spec,
        themesPrompt_eq_spec, summaryPrompt_eq_spec, keyPointsPrompt_eq_spec],
      by simp [stdioAnalyzeRequest, stdioPromptLookup, htext, hty, pyStr, promptsGet,
        sentimentPrompt_eq_spec, themesPrompt_eq_spec, summaryPrompt_eq_spec,
        keyPointsPrompt_eq_spec]⟩

theorem analysis_templates_witness :
    (httpAnalyzeRequest { text := some "hello", analysis_type := some "sentiment" }).messages =
      [⟨"user", some (specTemplate "sentiment" ++ "\n\n" ++ "hello")⟩] ∧
    stdioAnalyzeRequest { text := some "hello", analysis_type := some "sentiment" } = some
      { model := "gpt-4o",
        messages := [⟨"user", some (specTemplate "sentiment" ++ "\n\n" ++ "hello")⟩],
        max_tokens := 1000 } :=
  analysis_templates { text := some "hello", analysis_type := some "sentiment" }
    "hello" "sentiment" rfl rfl (Or.inl rfl)

/-- C6: for an analysis request whose `analysis_type` is outside the four
defined literals, the HTTP surface silently sends the summary template and
(when the provider succeeds) reports success, while the stdio surface never
reaches the provider: the `prompts[analysis_type]` lookup fault is caught
and reported as an inline error text — the two surfaces diverge. -/
theorem analysis_unknown_type_divergence (o : Oracle) (data : PostData) (ty : String)
    (r : CompletionResult) (hty : data.analysis_type = some ty)
    (h1 : ty ≠ "sentiment") (h2 : ty ≠ "themes") (h3 : ty ≠ "summary") (h4 : ty ≠ "key_points")
    (hok : o (httpAnalyzeRequest data) = Except.ok r) :
    (httpAnalyzeRequest data).messages =
      [⟨"user", some (summaryPrompt (data.text.getD ""))⟩] ∧
    jLookup "success" (handle_analyze o data) = some (.bool true) ∧
    call_tool o "analyze_text" data =
      [⟨"text", "Error analyzing text: " ++ ("'" ++ ty ++ "'")⟩] := by
  refine ⟨?_, ?_, ?_⟩
  · simp [httpAnalyzeRequest, hty, promptsGet, h1, h2, h3, h4]
  · simp [handle_analyze, hok, jLookup]
  · simp [call_tool, stdioAnalyzeRequest, stdioPromptLookup, hty, promptsGet,
      h1, h2, h3, h4, pyKeyRepr]

theorem analysis_unknown_type_divergence_witness :
    (httpAnalyzeRequest { text := some "hi", analysis_type := some "foo" }).messages =
      [⟨"user", some (summaryPrompt (({ text := some "hi", analysis_type := some "foo" } :
        PostData).text.getD ""))⟩] ∧
    jLookup "success"
      (handle_analyze stubOracle { text := some "hi", analysis_type := some "foo" }) =
      some (.bool true) ∧
    call_tool stubOracle "analyze_text" { text := some "hi", analysis_type := some "foo" } =
      [⟨"text", "Error analyzing text: " ++ ("'" ++ "foo" ++ "'")⟩] :=
  analysis_unknown_type_divergence stubOracle
    { text := some "hi", analysis_type := some "foo" } "foo" ⟨"stub", 1, 2, 3⟩
    rfl (by simp) (by simp) (by simp) (by simp) rfl

/-- C7: on both surfaces every completion request built by the Analysis
Relay has its model fixed to `"gpt-4o"` — independent of any `model`
parameter in the request — and the 1000-token cap; and a successful HTTP
response is tagged (in its `type` field) with the request's analysis_type
(or the default `"summary"`). -/
theorem analysis_fixed_model_and_cap (o : Oracle) (data : PostData)
    (m : String) (r : CompletionResult)
    (hok : o (httpAnalyzeRequest data) = Except.ok r) :
    (httpAnalyzeRequest data).model = "gpt-4o" ∧
    (httpAnalyzeRequest data).max_tokens = 1000 ∧
    httpAnalyzeRequest { data with model := some m } = httpAnalyzeRequest data ∧
    stdioAnalyzeRequest { data with model := some m } = stdioAnalyzeRequest data ∧
    (∀ req, stdioAnalyzeRequest data = some req →
      req.model = "gpt-4o" ∧ req.max_tokens = 1000) ∧
    jLookup "type" (handle_analyze o data) =
      some (.str (data.analysis_type.getD "summary")) := by
  refine ⟨rfl, rfl, rfl, rfl, ?_, ?_⟩
  · intro req hreq
    unfold stdioAnalyzeRequest at hreq
    cases h : stdioPromptLookup data with
    | none => rw [h] at hreq; cases hreq
    | some p => rw [h] at hreq; cases hreq; exact ⟨rfl, rfl⟩
  · simp [handle_analyze, hok, jLookup, List.lookup]

theorem analysis_fixed_model_and_cap_witness :
    (httpAnalyzeRequest {}).model = "gpt-4o" ∧
    (httpAnalyzeRequest {}).max_tokens = 1000 ∧
    httpAnalyzeRequest { model := some "gpt-3.5" } = httpAnalyzeRequest {} ∧
    stdioAnalyzeRequest { model := some "gpt-3.5" } = stdioAnalyzeRequest {} ∧
    (∀ req, stdioAnalyzeRequest {} = some req →
      req.model = "gpt-4o" ∧ req.max_tokens = 1000) ∧
    jLookup "type" (handle_analyze stubOracle {}) =
      some (.str (({} : PostData).analysis_type.getD "summary")) :=
  analysis_fixed_model_and_cap stubOracle {} "gpt-3.5" ⟨"stub", 1, 2, 3⟩ rfl

/-- C10: a successful HTTP analysis response for an unrecognized
analysis_type echoes the client-supplied value in its `type` field even
though the provider message used the summary template — the tag and the
template used disagree. -/
theorem analysis_tag_echoes_unrecognized (o : Oracle) (data : PostData) (ty : String)
    (r : CompletionResult) (hty : data.analysis_type = some ty)
    (h1 : ty ≠ "sentiment") (h2 : ty ≠ "themes") (h3 : ty ≠ "summary") (h4 : ty ≠ "key_points")
    (hok : o (httpAnalyzeRequest data) = Except.ok r) :
    handle_analyze o data =
      .obj [("success", .bool true), ("analysis", .str r.content),
            ("type", .str ty), ("usage", usageJson r)] ∧
    (httpAnalyzeRequest data).messages =
      [⟨"user", some (summaryPrompt (data.text.getD ""))⟩] := by
  constructor
  · simp [handle_analyze, hok, hty]
  · simp [httpAnalyzeRequest, hty, promptsGet, h1, h2, h3, h4]

theorem analysis_tag_echoes_unrecognized_witness :
    handle_analyze stubOracle { text := some "t", analysis_type := some "bogus" } =
      .obj [("success", .bool true), ("analysis", .str "stub"),
            ("type", .str "bogus"), ("usage", usageJson ⟨"stub", 1, 2, 3⟩)] ∧
    (httpAnalyzeRequest { text := some "t", analysis_type := some "bogus" }).messages =
      [⟨"user", some (summaryPrompt (({ text := some "t", analysis_type := some "bogus" } :
        PostData).text.getD ""))⟩] :=
  analysis_tag_echoes_unrecognized stubOracle
    { text := some "t", analysis_type := some "bogus" } "bogus" ⟨"stub", 1, 2, 3⟩
    rfl (by simp) (by simp) (by simp) (by simp) rfl
